import Mathlib

/-!
Verification development for the honeypot-api repository.

Shallow embedding of:
- app/detector/classifier.py  (WorldClassScamDetector)
- app/extractor/patterns.py   (EliteIntelligenceExtractor)
- app/agent/orchestrator.py   (EliteAgentOrchestrator)
- app/guvi_handler.py         (EliteGuviHandler)

Python strings are embedded as List Char, floats as rationals.
Regular-expression search is embedded by a small executable engine:
every Kleene star occurring in the source's regexes has a single
character class as its body, so the engine needs no general star.
The extractor's use of re.finditer (match lists with capture groups)
is abstracted by a matcher parameter; every theorem about the
extractor holds for an arbitrary matcher.
-/

namespace HoneypotAPI

/-! ## Python string primitives -/

/-- Python str whitespace (ASCII scope): space, tab, LF, CR, VT, FF. -/
def isWS (c : Char) : Bool :=
  c = ' ' || c = '\t' || c = '\n' || c = '\r' || c = '\x0b' || c = '\x0c'

/-- Python text.strip() -/
def pyStrip (s : List Char) : List Char :=
  ((s.dropWhile isWS).reverse.dropWhile isWS).reverse

/-- Python text.lower() (ASCII scope) -/
def lowerStr (s : List Char) : List Char := s.map Char.toLower

/-- Python text.count(c) for a single character -/
def countChar (c : Char) (s : List Char) : Nat := (s.filter (fun x => x = c)).length

/-- Python substring containment: needle in hay -/
def containsSub (needle hay : List Char) : Bool :=
  (List.range (hay.length + 1)).any (fun i => needle.isPrefixOf (hay.drop i))

/-- Helper for Python text.split() -/
def wordsAux : List Char → List Char → List (List Char)
  | [], acc => if acc.isEmpty then [] else [acc.reverse]
  | c :: rest, acc =>
    if isWS c then
      if acc.isEmpty then wordsAux rest [] else acc.reverse :: wordsAux rest []
    else wordsAux rest (c :: acc)

/-- Python text.split() with no argument: whitespace runs, no empty words -/
def pyWords (s : List Char) : List (List Char) := wordsAux s []

/-- Is the character cased (ASCII scope)? -/
def isCased (c : Char) : Bool := c.isUpper || c.isLower

/-- Python word.isupper(): at least one cased character and all cased characters upper -/
def pyIsUpper (w : List Char) : Bool :=
  w.any isCased && w.all (fun c => !isCased c || c.isUpper)

/-! ## Regex engine

AST for the fragment of Python re used by the classifier.  Stars only
ever wrap a single character class in the source patterns, so the
star constructor carries a class; matching is then structurally
recursive with no fuel. -/

inductive RE where
  | eps : RE
  | cls (p : Char → Bool) : RE
  | cat (a b : RE) : RE
  | alt (a b : RE) : RE
  | starCls (p : Char → Bool) : RE
  | wordB : RE

/-- Length of the maximal run of p-characters at the head -/
def runLen (p : Char → Bool) : List Char → Nat
  | [] => 0
  | c :: rest => if p c then runLen p rest + 1 else 0

/-- Python \w (ASCII scope) -/
def isWordChar (c : Char) : Bool := c.isAlphanum || c = '_'

/-- Python \b at position i of the text -/
def atWordB (t : List Char) (i : Nat) : Bool :=
  let chk := fun (j : Nat) => match t.get? j with
    | some c => isWordChar c
    | none => false
  let pre := if i = 0 then false else chk (i - 1)
  pre != chk i

/-- All end positions of matches of r starting at position i of t -/
def ends : RE → List Char → Nat → List Nat
  | .eps, _, i => [i]
  | .cls p, t, i =>
    match t.get? i with
    | some c => if p c then [i + 1] else []
    | none => []
  | .cat a b, t, i => ((ends a t i).map (fun j => ends b t j)).flatten.eraseDups
  | .alt a b, t, i => (ends a t i ++ ends b t i).eraseDups
  | .starCls p, t, i => (List.range (runLen p (t.drop i) + 1)).map (fun k => i + k)
  | .wordB, t, i => if atWordB t i then [i] else []

/-- re.search: some match starts somewhere in t -/
def reSearch (r : RE) (t : List Char) : Bool :=
  (List.range (t.length + 1)).any (fun i => !(ends r t i).isEmpty)

/-- Greatest end position among a list of candidate ends -/
def maxEnd (l : List Nat) : Option Nat :=
  l.foldl (fun acc j => match acc with
    | none => some j
    | some m => some (max m j)) none

/-- Leftmost-longest non-overlapping match spans (start, end) -/
def findSpansAux (r : RE) (t : List Char) : Nat → Nat → List (Nat × Nat)
  | 0, _ => []
  | fuel + 1, i =>
    if i > t.length then []
    else
      match maxEnd (ends r t i) with
      | some j => (i, j) :: findSpansAux r t fuel (max j (i + 1))
      | none => findSpansAux r t fuel (i + 1)

/-- re.finditer / re.findall spans for the simple greedy patterns used here -/
def findSpans (r : RE) (t : List Char) : List (Nat × Nat) :=
  findSpansAux r t (t.length + 1) 0

/-- Number of matches found by re.findall -/
def countMatches (r : RE) (t : List Char) : Nat := (findSpans r t).length

/-- The matched substring for a span -/
def spanStr (t : List Char) (s : Nat × Nat) : List Char :=
  (t.drop s.1).take (s.2 - s.1)

/-! Derived regex constructors -/

/-- Literal string regex -/
def strRE (s : List Char) : RE :=
  s.foldr (fun c r => RE.cat (RE.cls (fun x => x = c)) r) RE.eps

/-- Literal from a string literal -/
def litRE (s : String) : RE := strRE s.data

/-- Alternation over a list (empty list never matches) -/
def altList : List RE → RE
  | [] => RE.cls (fun _ => false)
  | [r] => r
  | r :: rest => RE.alt r (altList rest)

/-- Alternation of string literals -/
def altStr (ss : List String) : RE := altList (ss.map litRE)

/-- Sequencing of a list of regexes -/
def seqRE (rs : List RE) : RE := rs.foldr RE.cat RE.eps

/-- r? -/
def optRE (r : RE) : RE := RE.alt r RE.eps

/-- p+ for a class p -/
def plusCls (p : Char → Bool) : RE := RE.cat (RE.cls p) (RE.starCls p)

/-- p{lo,hi} for a class p -/
def repCls (p : Char → Bool) (lo hi : Nat) : RE :=
  seqRE ((List.replicate lo (RE.cls p)) ++ List.replicate (hi - lo) (optRE (RE.cls p)))

/-- Python . (no DOTALL): any char except newline -/
def dotC (c : Char) : Bool := c ≠ '\n'

def digitC (c : Char) : Bool := c.isDigit

/-! ## WorldClassScamDetector (app/detector/classifier.py) -/

/-- Python max(a, b) (kernel-reducible; the lattice max of ℚ is not) -/
def pyMax (a b : ℚ) : ℚ := if b ≤ a then a else b

/-- Python min(a, b) -/
def pyMin (a b : ℚ) : ℚ := if a ≤ b then a else b

/-- self.keyword_categories.  The free_offers dict literal in the source
lists the key voucher twice with the same weight 0.6; a Python dict keeps
a single entry, embedded here as one pair. -/
def keyword_categories : List (String × List (String × ℚ)) :=
  [("financial_scam",
    [("won", 1), ("win", 1), ("winner", 1), ("lottery", 1), ("prize", 1),
     ("reward", 9/10), ("jackpot", 1), ("bonanza", 1), ("fortune", 9/10),
     ("million", 9/10), ("crore", 9/10), ("lakh", 4/5), ("cash", 4/5), ("money", 7/10)]),
   ("urgency_pressure",
    [("urgent", 9/10), ("immediate", 9/10), ("emergency", 9/10), ("now", 4/5),
     ("today", 4/5), ("quick", 7/10), ("fast", 7/10), ("hurry", 9/10),
     ("limited", 4/5), ("expire", 9/10), ("deadline", 4/5), ("last chance", 1),
     ("final", 4/5), ("instant", 4/5), ("right now", 1)]),
   ("authority_impersonation",
    [("government", 9/10), ("official", 9/10), ("authority", 9/10), ("income tax", 1),
     ("itr", 4/5), ("tax", 4/5), ("court", 9/10), ("police", 9/10), ("cid", 4/5),
     ("cyber crime", 9/10), ("rbi", 1), ("sebi", 9/10), ("bank official", 1),
     ("manager", 7/10), ("officer", 7/10), ("agent", 7/10)]),
   ("financial_threats",
    [("block", 1), ("suspend", 1), ("freeze", 9/10), ("close", 9/10),
     ("deactivate", 4/5), ("terminate", 4/5), ("penalty", 9/10), ("fine", 9/10),
     ("legal action", 1), ("arrest", 1), ("case", 4/5), ("complaint", 4/5),
     ("fraud", 9/10), ("scam", 9/10), ("investigation", 4/5)]),
   ("payment_demand",
    [("send money", 1), ("transfer", 9/10), ("pay", 9/10), ("deposit", 9/10),
     ("credit", 4/5), ("account", 4/5), ("bank", 4/5), ("upi", 1),
     ("google pay", 9/10), ("phonepe", 9/10), ("paytm", 9/10), ("net banking", 4/5),
     ("rtgs", 7/10), ("neft", 7/10), ("imps", 7/10)]),
   ("personal_info",
    [("password", 1), ("otp", 1), ("pin", 1), ("aadhaar", 1),
     ("pan", 1), ("card", 9/10), ("cvv", 1), ("expiry", 4/5),
     ("signature", 7/10), ("photo", 3/5), ("document", 7/10),
     ("kyc", 9/10), ("verification", 4/5), ("authenticate", 4/5)]),
   ("call_to_action",
    [("click", 9/10), ("visit", 4/5), ("open", 7/10), ("call", 7/10),
     ("message", 3/5), ("whatsapp", 4/5), ("telegram", 7/10),
     ("download", 4/5), ("install", 7/10), ("update", 7/10),
     ("verify", 4/5), ("confirm", 7/10), ("submit", 7/10)]),
   ("free_offers",
    [("free", 4/5), ("gift", 4/5), ("bonus", 4/5), ("offer", 7/10),
     ("discount", 3/5), ("coupon", 3/5), ("voucher", 3/5),
     ("gift card", 4/5), ("shopping", 1/2), ("amazon", 3/5),
     ("flipkart", 3/5)])]

/-- The first scam pattern: lottery prize amount -/
def lottery_pattern : RE :=
  seqRE [altStr ["won", "win", "winner"], RE.starCls dotC,
         altStr ["lottery", "prize", "reward"], RE.starCls dotC,
         plusCls digitC, RE.starCls (fun c => c = ',' || isWS c),
         altStr ["lakh", "crore", "million", "thousand"]]

/-- self.scam_patterns (grouping parentheses dropped: only search existence
is consumed) -/
def scam_patterns : List (RE × ℚ) :=
  [(lottery_pattern, 1),
   (seqRE [altStr ["urgent", "emergency"], RE.starCls dotC,
           altStr ["account", "bank"], RE.starCls dotC,
           altStr ["block", "suspend"]], 1),
   (seqRE [altStr ["government", "official", "rbi", "income tax"], RE.starCls dotC,
           altStr ["fine", "penalty", "payment"]], 9/10),
   (seqRE [altStr ["send", "transfer", "pay"], RE.starCls dotC,
           altStr ["money", "amount"], RE.starCls dotC,
           altStr ["account", "upi", "bank"]], 9/10),
   (seqRE [altStr ["click", "visit"], RE.starCls dotC,
           altStr ["link", "website", "url"], RE.starCls dotC,
           altStr ["verify", "confirm"]], 4/5),
   (seqRE [altStr ["free", "gift", "bonus"], RE.starCls dotC,
           altStr ["claim", "collect"], RE.starCls dotC,
           altStr ["offer"]], 7/10),
   (seqRE [altStr ["password", "otp", "pin", "cvv"], RE.starCls dotC,
           altStr ["share", "send", "provide"]], 1),
   (seqRE [altStr ["aadhaar", "pan", "document"], RE.starCls dotC,
           altStr ["update", "verify", "submit"]], 4/5)]

/-- self.known_scam_domains (a Python set; its escaped-dot regexes are
plain substring literals) -/
def known_scam_domains : List String :=
  ["bit.ly", "tinyurl.com", "short.url", "cutt.ly",
   "rebrand.ly", "is.gd", "clck.ru", "shorte.st",
   "adf.ly", "ouo.io", "bc.vc", "goo.gl"]

/-- self.suspicious_tlds -/
def suspicious_tlds : List String :=
  [".tk", ".ml", ".ga", ".cf", ".gq", ".xyz", ".top", ".club"]

/-- For each keyword category: the keywords found as substrings of the
lowered text, with their weights -/
def catFound (tl : List Char) (kws : List (String × ℚ)) : List (String × ℚ) :=
  kws.filter (fun kw => containsSub kw.1.data tl)

/-- One category's normalized score -/
def categoryScore (tl : List Char) (kws : List (String × ℚ)) : ℚ :=
  let found := catFound tl kws
  let s := (found.map (fun kw => kw.2)).sum
  if found.isEmpty then s else pyMin (s / 3) 1

/-- calculate_keyword_score: per category (name, score, found keywords
capped at 5) -/
def calculate_keyword_score (text : List Char) : List (String × ℚ × List String) :=
  let tl := lowerStr text
  keyword_categories.map (fun c =>
    (c.1, categoryScore tl c.2, ((catFound tl c.2).map (fun kw => kw.1)).take 5))

/-- Python max over a list of scores (the source applies it to the
non-empty category list) -/
def listMax : List ℚ → ℚ
  | [] => 0
  | x :: xs => xs.foldl pyMax x

/-- Score lookup in a keyword analysis -/
def catLookup (ka : List (String × ℚ × List String)) (n : String) : ℚ :=
  ((ka.find? (fun c => c.1 = n)).map (fun c => c.2.1)).getD 0

/-- calculate_pattern_score -/
def calculate_pattern_score (text : List Char) : ℚ :=
  scam_patterns.foldl (fun acc pw => if reSearch pw.1 text then pyMax acc pw.2 else acc) 0

/-- r'https?://[^\s]+' -/
def urlRE : RE :=
  seqRE [litRE "http", optRE (RE.cls (fun c => c = 's')), litRE "://",
         plusCls (fun c => !isWS c)]

/-- IPv4-literal pattern used inside analyze_urls -/
def ipRE : RE :=
  seqRE [repCls digitC 1 3, litRE ".", repCls digitC 1 3, litRE ".",
         repCls digitC 1 3, litRE ".", repCls digitC 1 3]

/-- Per-URL score update of analyze_urls -/
def urlStep (score : ℚ) (url : List Char) : ℚ :=
  let s1 := if known_scam_domains.any (fun d => containsSub d.data url) then
    pyMax score (9/10) else score
  let s2 := if suspicious_tlds.any (fun d => containsSub d.data url) then
    pyMax s1 (4/5) else s1
  let s3 := if reSearch ipRE url then pyMax s2 (7/10) else s2
  if url.length < 30 && containsSub "http".data url then pyMax s3 (3/5) else s3

/-- analyze_urls -/
def analyze_urls (text : List Char) : ℚ :=
  let tl := lowerStr text
  let urls := (findSpans urlRE tl).map (spanStr tl)
  if urls.isEmpty then 0 else urls.foldl urlStep 0

/-- r'(\+91[\-\s]?)?[6-9]\d{9}' -/
def phoneRE : RE :=
  RE.cat (optRE (seqRE [litRE "+91", optRE (RE.cls (fun c => c = '-' || isWS c))]))
    (RE.cat (RE.cls (fun c => '6' ≤ c && c ≤ '9')) (repCls digitC 9 9))

/-- detect_phone_numbers -/
def detect_phone_numbers (text : List Char) : ℚ :=
  let n := countMatches phoneRE text
  if n = 0 then 0
  else if 1 < n then 4/5
  else if ["call", "whatsapp", "message", "contact", "number is"].any
    (fun c => containsSub c.data (lowerStr text)) then 7/10
  else 2/5

/-- r'\b\d{9,18}\b' -/
def acctRE : RE := seqRE [RE.wordB, repCls digitC 9 18, RE.wordB]

/-- Character class [\w.\-] -/
def upiChar (c : Char) : Bool := isWordChar c || c = '.' || c = '-'

/-- r'[\w.\-]+@(okicici|okhdfc|okaxis|oksbi|ybl|axl|ibl)' -/
def upi1RE : RE :=
  seqRE [plusCls upiChar, litRE "@",
         altStr ["okicici", "okhdfc", "okaxis", "oksbi", "ybl", "axl", "ibl"]]

/-- r'upi[\s:]+[\w.\-]+@[\w]+' -/
def upi2RE : RE :=
  seqRE [litRE "upi", plusCls (fun c => isWS c || c = ':'),
         plusCls upiChar, litRE "@", plusCls isWordChar]

/-- r'pay[\s]+to[\s]+[\w.\-]+@[\w]+' -/
def upi3RE : RE :=
  seqRE [litRE "pay", plusCls isWS, litRE "to", plusCls isWS,
         plusCls upiChar, litRE "@", plusCls isWordChar]

/-- r'\b\d{4}[\s-]?\d{4}[\s-]?\d{4}[\s-]?\d{4}\b' -/
def cardRE : RE :=
  seqRE [RE.wordB, repCls digitC 4 4, optRE (RE.cls (fun c => isWS c || c = '-')),
         repCls digitC 4 4, optRE (RE.cls (fun c => isWS c || c = '-')),
         repCls digitC 4 4, optRE (RE.cls (fun c => isWS c || c = '-')),
         repCls digitC 4 4, RE.wordB]

/-- analyze_financial_info -/
def analyze_financial_info (text : List Char) : ℚ :=
  let s0 : ℚ := 0
  let s1 := if reSearch acctRE text then
      (let a := pyMax s0 (7/10)
       if ["account", "bank", "acc"].any (fun k => containsSub k.data (lowerStr text))
       then pyMax a (9/10) else a)
    else s0
  let s2 := if [upi1RE, upi2RE, upi3RE].any (fun r => reSearch r text) then
    pyMax s1 (19/20) else s1
  if reSearch cardRE text then pyMax s2 1 else s2

/-- Result of calculate_linguistic_features -/
structure LingFeatures where
  exclamation_ratio : ℚ
  caps_ratio : ℚ
  urgency_words : Nat
  emotional_words : Nat
  length_score : ℚ
deriving DecidableEq

/-- The urgency keyword set of calculate_linguistic_features -/
def urgency_keywords : List String :=
  ["urgent", "immediate", "emergency", "now", "today", "hurry", "quick"]

/-- The emotional word set of calculate_linguistic_features -/
def emotional_words_set : List String :=
  ["congratulations", "alert", "warning", "danger", "important", "attention"]

/-- calculate_linguistic_features -/
def calculate_linguistic_features (text : List Char) : LingFeatures :=
  if text.isEmpty then ⟨0, 0, 0, 0, 0⟩
  else
    let ex := countChar '!' text
    let er := pyMin ((ex : ℚ) / 5) 1
    let ws := pyWords text
    let cr := if ws.isEmpty then 0
      else pyMin (((ws.filter (fun w => pyIsUpper w && 2 < w.length)).length : ℚ) / (ws.length : ℚ)) 1
    let ur := (urgency_keywords.filter (fun k => containsSub k.data (lowerStr text))).length
    let em := (emotional_words_set.filter (fun k => containsSub k.data (lowerStr text))).length
    let ls : ℚ := if text.length < 20 || 500 < text.length then 7/10 else 0
    ⟨er, cr, ur, em, ls⟩

/-- The unweighted linguistic sub-score assembled inside detect_scam -/
def linguistic_score (text : List Char) : ℚ :=
  let f := calculate_linguistic_features text
  f.exclamation_ratio * (3/10) + f.caps_ratio * (1/5) +
    pyMin ((f.urgency_words : ℚ) * (1/5)) (2/5) +
    pyMin ((f.emotional_words : ℚ) * (1/10)) (3/10) +
    f.length_score * (1/5)

/-- The keyword sub-score: max category score of the analysis of the
lowered text (detect_scam passes text_lower) -/
def keyword_score (text : List Char) : ℚ :=
  listMax ((calculate_keyword_score (lowerStr text)).map (fun c => c.2.1))

/-- The analysis report part consumed by the claims -/
structure DetectionAnalysis where
  confidence : ℚ
  threshold_used : ℚ
  category_scores : List (String × ℚ)
deriving DecidableEq

/-- Return value of detect_scam; the empty analysis dict of the
short-text guard is embedded as none -/
structure DetectResult where
  is_scam : Bool
  confidence : ℚ
  analysis : Option DetectionAnalysis
deriving DecidableEq

/-- detect_scam passes text_lower into pattern matching -/
def pattern_score (text : List Char) : ℚ :=
  calculate_pattern_score (lowerStr text)

/-- detect_scam passes text_lower into URL analysis -/
def url_score (text : List Char) : ℚ := analyze_urls (lowerStr text)

/-- detect_scam passes the original text into phone analysis -/
def phone_score (text : List Char) : ℚ := detect_phone_numbers text

/-- detect_scam passes text_lower into financial analysis -/
def financial_score (text : List Char) : ℚ :=
  analyze_financial_info (lowerStr text)

/-- The keyword analysis produced inside detect_scam -/
def keyword_analysis (text : List Char) : List (String × ℚ × List String) :=
  calculate_keyword_score (lowerStr text)

/-- The combined weighted confidence before the boost -/
def total_score (t : List Char) : ℚ :=
  keyword_score t * (7/20) + pattern_score t * (1/4) + financial_score t * (1/5) +
    url_score t * (1/10) + phone_score t * (1/20) + linguistic_score t * (1/20)

/-- The critical-combination boost condition -/
def boost_cond (t : List Char) : Prop :=
  let ka := keyword_analysis t
  (catLookup ka "financial_scam" > 3/5 ∧ catLookup ka "payment_demand" > 3/5)
    ∨ (catLookup ka "urgency_pressure" > 3/5 ∧ catLookup ka "financial_threats" > 3/5)
    ∨ (catLookup ka "authority_impersonation" > 3/5 ∧ catLookup ka "payment_demand" > 3/5)

instance (t : List Char) : Decidable (boost_cond t) := by
  unfold boost_cond
  exact inferInstance

/-- The confidence after the boost -/
def boosted_score (t : List Char) : ℚ :=
  if boost_cond t then pyMin (total_score t + 1/5) 1 else total_score t

/-- The adaptive threshold -/
def threshold (t : List Char) : ℚ :=
  if financial_score t > 7/10 ∨ pattern_score t > 4/5 then 7/20 else 2/5

/-- detect_scam -/
def detect_scam (text : String) : DetectResult :=
  let t := text.data
  if t.isEmpty || (pyStrip t).length < 3 then ⟨false, 0, none⟩
  else
    ⟨decide (threshold t ≤ boosted_score t), boosted_score t,
     some ⟨boosted_score t, threshold t,
       (keyword_analysis t).map (fun c => (c.1, c.2.1))⟩⟩

/-! ## EliteIntelligenceExtractor (app/extractor/patterns.py)

The extractor iterates re.finditer over a fixed pattern table.  The
finditer call itself (match list and capture groups) is abstracted by a
matcher parameter mapping (pattern source, text) to the match list;
each match carries the first capture group (none when the pattern has
no groups or the group did not participate) and the whole match.
Every theorem below quantifies over this matcher. -/

/-- One re.finditer match: first capture group and whole match -/
structure RawMatch where
  group1 : Option String
  whole : String
deriving DecidableEq

/-- The finditer oracle: pattern source and subject to match list -/
abbrev Matcher := String → String → List RawMatch

/-- One extracted item dict: value, confidence, context -/
structure ExtItem where
  value : String
  confidence : ℚ
  context : String
deriving DecidableEq

/-- self.patterns: pattern type to (regex source, base confidence) list.
Literal braces in the regex sources are written with x7b/x7d escapes. -/
def extractor_patterns : List (String × List (String × ℚ)) :=
  [("bank_account",
    [("(?:account|acc|ac)\\s*(?:no|number|#|no\\.)?\\s*[:=\\-]?\\s*(\\d\x7b9,18\x7d)", Rat.divInt 19 20),
     ("\\b(\\d\x7b9,18\x7d)\\b(?=\\s*(?:is|for|of|in|to|from|account|bank))", Rat.divInt 17 20),
     ("bank\\s+(?:account|details)\\s*[:=\\-]?\\s*(\\d\x7b9,18\x7d)", Rat.divInt 49 50),
     ("(?:sbi|hdfc|icici|axis|kotak|pnb)\\s+(?:account|acc)\\s*[:=\\-]?\\s*(\\d\x7b9,18\x7d)", Rat.divInt 99 100)]),
   ("upi_id",
    [("\\b([\\w.\\-]\x7b2,\x7d@(?:okicici|okhdfc|okaxis|oksbi|ybl|axl|ibl|upi|paytm))\\b", Rat.divInt 97 100),
     ("upi\\s*(?:id|address)?\\s*[:=\\-]?\\s*([\\w.\\-]+@[\\w.]+)", Rat.divInt 24 25),
     ("pay\\s*(?:to|via)?\\s*([\\w.\\-]+@[\\w.]+)", Rat.divInt 47 50),
     ("send\\s+(?:money|payment|amount)\\s+to\\s+([\\w.\\-]+@[\\w.]+)", Rat.divInt 49 50),
     ("(\\d\x7b10\x7d)@(?:okicici|okhdfc|okaxis|oksbi|ybl|axl)", Rat.divInt 19 20)]),
   ("url",
    [("(?:https?://|www\\.)[^\\s<>\"\x27\x7b\x7d|\\\\^\x60\\[\\]]+", Rat.divInt 9 10),
     ("(?:click|visit|open|go to|check)\\s+(?:this|the|our)?\\s*(?:link|site|website|page|portal)\\s*[:=\\-]?\\s*((?:https?://|www\\.)[^\\s]+)", Rat.divInt 97 100),
     ("(?:bit\\.ly|tinyurl\\.com|short\\.url|cutt\\.ly|rebrand\\.ly)/[^\\s]+", Rat.divInt 17 20),
     ("(?:pay|payment|buy|purchase|donate)\\s*(?:link|url)?\\s*[:=\\-]?\\s*(https?://[^\\s]+)", Rat.divInt 19 20)]),
   ("phone_number",
    [("(?:\\+91[\\-\\s]?)?[6-9]\\d\x7b9\x7d", Rat.divInt 4 5),
     ("contact\\s*(?:no|number)?\\s*[:=\\-]?\\s*((?:\\+91[\\-\\s]?)?[6-9]\\d\x7b9\x7d)", Rat.divInt 9 10),
     ("call\\s+(?:me|us|at)?\\s*[:=\\-]?\\s*((?:\\+91[\\-\\s]?)?[6-9]\\d\x7b9\x7d)", Rat.divInt 22 25),
     ("whatsapp\\s*(?:no|number)?\\s*[:=\\-]?\\s*((?:\\+91[\\-\\s]?)?[6-9]\\d\x7b9\x7d)", Rat.divInt 23 25)]),
   ("email",
    [("\\b[A-Za-z0-9._%+-]+@[A-Za-z0-9.-]+\\.[A-Z|a-z]\x7b2,\x7d\\b", Rat.divInt 4 5),
     ("email\\s*(?:id|address)?\\s*[:=\\-]?\\s*([A-Za-z0-9._%+-]+@[A-Za-z0-9.-]+\\.[A-Z|a-z]\x7b2,\x7d)", Rat.divInt 9 10)]),
   ("card_details",
    [("\\b\\d\x7b4\x7d[\\s\\-]?\\d\x7b4\x7d[\\s\\-]?\\d\x7b4\x7d[\\s\\-]?\\d\x7b4\x7d\\b", Rat.divInt 99 100),
     ("(?:card|credit|debit)\\s+(?:no|number)\\s*[:=\\-]?\\s*(\\d\x7b4\x7d[\\s\\-]?\\d\x7b4\x7d[\\s\\-]?\\d\x7b4\x7d[\\s\\-]?\\d\x7b4\x7d)", Rat.divInt 1 1),
     ("cvv\\s*[:=\\-]?\\s*(\\d\x7b3,4\x7d)", Rat.divInt 19 20),
     ("expir(?:y|ation)\\s*(?:date)?\\s*[:=\\-]?\\s*(\\d\x7b2\x7d/\\d\x7b2,4\x7d)", Rat.divInt 9 10)])]

/-- The punctuation set stripped by clean_value (quote, braces given by
code point to avoid literal punctuation in the source file) -/
def stripSet : List Char :=
  " .,;:!?".data ++ [Char.ofNat 39, '"'] ++ "[]".data ++
    [Char.ofNat 123, Char.ofNat 125] ++ "()<>".data

/-- Python value.strip(stripSet) -/
def stripPunct (s : List Char) : List Char :=
  (((s.dropWhile (fun c => stripSet.contains c)).reverse.dropWhile
    (fun c => stripSet.contains c)).reverse)

/-- clean_value -/
def clean_value (value : String) (pattern_type : String) : String :=
  if value.isEmpty then value
  else
    let v := stripPunct value.data
    if pattern_type = "bank_account" then ⟨v.filter Char.isDigit⟩
    else if pattern_type = "upi_id" then ⟨lowerStr v⟩
    else if pattern_type = "url" then
      (if ("http://".data.isPrefixOf v) || ("https://".data.isPrefixOf v)
          || ("www.".data.isPrefixOf v) then (⟨v⟩ : String)
       else ⟨"http://".data ++ v⟩)
    else ⟨v⟩

/-- is_false_positive -/
def is_false_positive (value : String) (pattern_type : String) : Bool :=
  if pattern_type = "bank_account" then
    decide (value.length < 9) || decide (value.data.eraseDups.length < 3) ||
      ("0".data.isPrefixOf value.data && decide (10 < value.length))
  else if pattern_type = "phone_number" then
    value = "9999999999" || value = "8888888888" || value = "9876543210"
  else false

/-- has_context (the context rules read only the text, never the match) -/
def has_context (text : String) (pattern_type : String) : Bool :=
  if pattern_type = "bank_account" then
    ["account", "bank", "transfer", "send"].any
      (fun w => containsSub w.data (lowerStr text.data))
  else if pattern_type = "upi_id" then
    ["upi", "pay", "send money", "transfer"].any
      (fun w => containsSub w.data (lowerStr text.data))
  else if pattern_type = "url" then
    ["click", "visit", "link", "website"].any
      (fun w => containsSub w.data (lowerStr text.data))
  else true

/-- The dict key the source computes for appending:
pattern_type.replace(underscore, empty) + s -/
def result_key (pattern_type : String) : String :=
  ⟨(pattern_type.data.filter (fun c => c ≠ '_')) ++ "s".data⟩

/-- The pre-initialized result keys -/
def initResults : List (String × List ExtItem) :=
  [("bank_accounts", []), ("upi_ids", []), ("urls", []),
   ("phone_numbers", []), ("emails", []), ("card_details", [])]

/-- results[key].append(item) guarded by: if result_key in results -/
def addToResults (rs : List (String × List ExtItem)) (key : String)
    (it : ExtItem) : List (String × List ExtItem) :=
  if rs.any (fun kv => kv.1 = key) then
    rs.map (fun kv => if kv.1 = key then (kv.1, kv.2 ++ [it]) else kv)
  else rs

/-- Body of the inner finditer loop.  The state carries the running
confidence: the Python loop variable confidence is multiplied in place
by 0.7 on each accepted match that lacks context, so the decay
compounds across matches of one pattern. -/
def matchStep (text pattern_type : String)
    (st : ℚ × List (String × List ExtItem)) (rm : RawMatch) :
    ℚ × List (String × List ExtItem) :=
  let value := match rm.group1 with
    | some g => if g.isEmpty then rm.whole else g
    | none => rm.whole
  if value.isEmpty then st
  else
    let v := clean_value value pattern_type
    if v.isEmpty || is_false_positive v pattern_type then st
    else
      let conf := if has_context text pattern_type then st.1
        else st.1 * Rat.divInt 7 10
      (conf, addToResults st.2 (result_key pattern_type)
        ⟨v, conf, ⟨rm.whole.data.take 50⟩⟩)

/-- One (pattern, confidence) table entry processed over its matches -/
def patternFold (m : Matcher) (text pattern_type : String)
    (rs : List (String × List ExtItem)) (pc : String × ℚ) :
    List (String × List ExtItem) :=
  ((m pc.1 text).foldl (matchStep text pattern_type) (pc.2, rs)).2

/-- One pattern type processed over its pattern list -/
def typeFold (m : Matcher) (text : String)
    (rs : List (String × List ExtItem)) (tp : String × List (String × ℚ)) :
    List (String × List ExtItem) :=
  tp.2.foldl (patternFold m text tp.1) rs

/-- Deduplication by value keeping the first occurrence -/
def dedupByValue : List String → List ExtItem → List ExtItem
  | _, [] => []
  | seen, it :: rest =>
    if seen.contains it.value then dedupByValue seen rest
    else it :: dedupByValue (it.value :: seen) rest

/-- Stable insertion for descending sort by confidence (equal keys keep
their original order, as Python sorted with reverse=True does) -/
def insertDesc (it : ExtItem) : List ExtItem → List ExtItem
  | [] => [it]
  | x :: xs => if it.confidence < x.confidence then x :: insertDesc it xs
    else it :: x :: xs

/-- sorted(unique, key confidence, reverse=True) -/
def sortDesc : List ExtItem → List ExtItem
  | [] => []
  | x :: xs => insertDesc x (sortDesc xs)

/-- extract_all -/
def extract_all (m : Matcher) (text : String) : List (String × List ExtItem) :=
  if text.isEmpty || (pyStrip text.data).length < 10 then initResults
  else
    let rs := extractor_patterns.foldl (typeFold m text) initResults
    let rs := rs.map (fun kv => (kv.1, sortDesc (dedupByValue [] kv.2)))
    rs.map (fun kv =>
      (kv.1, kv.2.filter (fun it => decide (Rat.divInt 3 5 ≤ it.confidence))))

/-- Result group lookup, as results[key] for a present key -/
def getGroup (rs : List (String × List ExtItem)) (key : String) : List ExtItem :=
  ((rs.find? (fun kv => kv.1 = key)).map (fun kv => kv.2)).getD []

/-! ## EliteAgentOrchestrator (app/agent/orchestrator.py)

Replies are built as List Char (Python string slicing becomes
List.take).  The unseeded uniform randomness is embedded as an
explicit draw record: random.choice xs becomes indexing by a draw
modulo the list length, random.random() threshold tests become
booleans.  Every theorem quantifies over the draws. -/

/-- self.response_strategies (stage field omitted: never read).
Apostrophes in the canned lines are written with the x27 escape. -/
def response_strategies : List (String × List String) :=
  [("initial_engagement",
    ["Hi, I received your message.",
     "Hello, who is this?",
     "I got a notification about this.",
     "Is this regarding the recent message I received?",
     "Can you tell me more about this?",
     "I\x27m not sure I understand, can you explain?",
     "This is concerning. What should I do?"]),
   ("playing_dumb",
    ["I\x27m not very tech-savvy. Can you guide me through this?",
     "My app keeps showing errors. What do I do?",
     "I tried but it\x27s not working. Can you help step by step?",
     "Sorry, I\x27m new to this. Can you explain like I\x27m a beginner?",
     "Which option should I select? I\x27m confused.",
     "The website is loading slowly. Is that normal?",
     "My phone is old. Will that cause any issues?"]),
   ("seeking_assurance",
    ["Are you sure this is safe? I\x27ve heard about scams.",
     "Can you provide official verification?",
     "Is there a customer care number I can call to confirm?",
     "This seems urgent. Why wasn\x27t I notified earlier?",
     "Can you send this in writing or email?",
     "I need to check with my family first.",
     "What happens if I don\x27t do this immediately?"]),
   ("extraction_phase",
    ["What details exactly do you need from me?",
     "Can you share your UPI ID again? I didn\x27t save it.",
     "What\x27s the account number where I should send money?",
     "Can you send the link one more time?",
     "Should I share my bank details here or somewhere else?",
     "Is it okay to share my Aadhaar number for verification?",
     "What\x27s the website where I need to enter my details?"]),
   ("delaying_tactics",
    ["My internet is slow. Please wait.",
     "Let me charge my phone first.",
     "I need to find my debit card. One minute.",
     "The OTP hasn\x27t arrived yet. Should I request again?",
     "My bank app needs an update. It\x27s taking time.",
     "I\x27m at work. Can we continue in 10 minutes?",
     "Let me check with my bank once."])]

/-- self.modifiers -/
def modifiers : List (String × List String) :=
  [("concerned", ["Actually, ", "Wait, ", "Hmm... ", "Sorry, "]),
   ("urgent", ["Quickly, ", "Immediately, ", "Asap, ", "Right now, "]),
   ("confused", ["I think ", "Maybe ", "Probably ", "Perhaps "]),
   ("agreeable", ["Okay, ", "Alright, ", "Sure, ", "Yes, "])]

/-- self.fillers -/
def fillers : List String :=
  ["please", "sorry", "brother", "sir", "madam",
   "actually", "basically", "like", "you know"]

/-- The urgency phrase list of generate_response -/
def urgency_phrases : List String :=
  ["It\x27s very urgent!", "Please hurry!", "Time is running out!"]

/-- random.choice over a non-empty list, driven by a draw -/
def choose (xs : List String) (i : Nat) : String := xs.getD (i % xs.length) ""

/-- Lookup in a string-keyed table of line lists -/
def tableGet (tbl : List (String × List String)) (key : String) : List String :=
  ((tbl.find? (fun kv => kv.1 = key)).map (fun kv => kv.2)).getD []

/-- The random draws consumed by one generate_response call -/
structure Rand where
  baseIdx : Nat
  modIdx : Nat
  fillerOn : Bool
  fillerIdx : Nat
  missingOn : Bool
  missingIdx : Nat
  urgencyOn : Bool
  urgencyIdx : Nat
deriving DecidableEq

/-- Context record built by analyze_context -/
structure Ctx where
  stage : Nat
  urgency_high : Bool
  has_financial : Bool
  needs_more : Bool
deriving DecidableEq

/-- analyze_context (urgency_level is high vs medium, kept as a flag) -/
def analyze_context (turn_count : Nat) (scam_confidence : ℚ)
    (extracted_items : List (String × List ExtItem)) : Ctx :=
  let stage := min (turn_count / 2) 4
  let urgency_high := decide (Rat.divInt 7 10 < scam_confidence)
  let has_financial := extracted_items.any (fun kv =>
    (kv.1 = "bank_accounts" || kv.1 = "upi_ids" || kv.1 = "card_details")
      && decide (0 < kv.2.length))
  let needs_more := decide (turn_count < 3)
    || !(extracted_items.any (fun kv => decide (0 < kv.2.length)))
  let stage := if has_financial && decide (1 < turn_count) then
    min (stage + 1) 4 else stage
  ⟨stage, urgency_high, has_financial, needs_more⟩

/-- select_strategy -/
def select_strategy (c : Ctx) : String :=
  if c.stage = 0 then "initial_engagement"
  else if c.stage = 1 then "playing_dumb"
  else if c.stage = 2 then
    (if c.urgency_high then "seeking_assurance" else "playing_dumb")
  else if c.stage = 3 then
    (if c.has_financial then "extraction_phase" else "seeking_assurance")
  else "delaying_tactics"

/-- Python extracted_intelligence.get(key): absent and empty are both
falsy, embedded as the empty group -/
def pyGet (ext : List (String × List ExtItem)) (key : String) : List ExtItem :=
  getGroup ext key

/-- The response assembled by generate_response before the length cap -/
def assembled_reply (turn_count : Nat) (scam_confidence : ℚ)
    (extracted_intelligence : List (String × List ExtItem)) (r : Rand) : List Char :=
  let ctx := analyze_context turn_count scam_confidence extracted_intelligence
  let strategy := select_strategy ctx
  let responses := tableGet response_strategies strategy
  let base := choose responses r.baseIdx
  let modifier :=
    if ctx.urgency_high then choose (tableGet modifiers "concerned") r.modIdx
    else if turn_count < 2 then choose (tableGet modifiers "confused") r.modIdx
    else choose (tableGet modifiers "agreeable") r.modIdx
  let response := modifier.data ++ base.data
  let response := if r.fillerOn then
    response ++ " ".data ++ (choose fillers r.fillerIdx).data else response
  let response := if strategy = "extraction_phase" then
      (let missing :=
        (if (pyGet extracted_intelligence "bank_accounts").isEmpty then
          ["bank account number"] else []) ++
        (if (pyGet extracted_intelligence "upi_ids").isEmpty then
          ["UPI ID"] else []) ++
        (if (pyGet extracted_intelligence "urls").isEmpty then
          ["website link"] else [])
      if !missing.isEmpty && r.missingOn then
        response ++ " What\x27s the ".data ++ (choose missing r.missingIdx).data
          ++ "?".data
      else response)
    else response
  if decide (Rat.divInt 4 5 < scam_confidence) && r.urgencyOn then
    response ++ " ".data ++ (choose urgency_phrases r.urgencyIdx).data
  else response

/-- generate_response: assembled reply, then
response[:497] + ellipsis if len(response) > 500 else response -/
def generate_response (turn_count : Nat) (scam_confidence : ℚ)
    (extracted_intelligence : List (String × List ExtItem)) (r : Rand) : List Char :=
  let response := assembled_reply turn_count scam_confidence extracted_intelligence r
  if 500 < response.length then response.take 497 ++ "...".data else response

/-! ## EliteGuviHandler (app/guvi_handler.py)

The ConversationState, Message and Intelligence records the handler
uses come from an app.models revision that is not part of src (the
src models.py lacks ConversationState/GuviRequest); their shape is
modelled from the spec (sections 3 and 4.3).  The state-transition
logic itself is translated from guvi_handler.py. -/

/-- Message (sender and text; timestamp fields are never read by the
handler logic under scrutiny) -/
structure Message where
  sender : String
  text : String
deriving DecidableEq

/-- One accumulated intelligence item (models.py ExtractedItem, context
omitted: never read by the handler) -/
structure IntelItem where
  value : String
  type : String
  confidence : ℚ
deriving DecidableEq

/-- models.py Intelligence: per-type accumulated lists -/
structure Intelligence where
  bank_accounts : List IntelItem := []
  upi_ids : List IntelItem := []
  urls : List IntelItem := []
  phone_numbers : List IntelItem := []
  emails : List IntelItem := []
  card_details : List IntelItem := []
  amounts : List IntelItem := []
deriving DecidableEq

/-- Modelled from the spec: ConversationState (spec sections 3, 4.3) —
the class is imported by guvi_handler.py from app.models but absent
from src; per the spec it is the per-session mutable record with the
fields used below, with engagement_level starting at 0 -/
structure ConversationState where
  session_id : String
  messages : List Message := []
  scam_detected : Bool := false
  scam_confidence : ℚ := 0
  extracted_intelligence : Intelligence := {}
  engagement_level : Nat := 0
  agent_persona : String := ""
deriving DecidableEq

/-- models.py ExtractedItem value validator: strip, empty becomes
unknown -/
def mkIntelItem (item_type : String) (it : ExtItem) : IntelItem :=
  ⟨if (pyStrip it.value.data).isEmpty then "unknown" else ⟨pyStrip it.value.data⟩,
   item_type, it.confidence⟩

/-- The per-type append chain of process_guvi_request (lines 78-98);
types other than the five listed ones are dropped -/
def mergeType (intel : Intelligence) (item_type : String)
    (items : List ExtItem) : Intelligence :=
  items.foldl (fun acc it =>
    let e := mkIntelItem item_type it
    if item_type = "bank_accounts" then
      { acc with bank_accounts := acc.bank_accounts ++ [e] }
    else if item_type = "upi_ids" then
      { acc with upi_ids := acc.upi_ids ++ [e] }
    else if item_type = "urls" then
      { acc with urls := acc.urls ++ [e] }
    else if item_type = "phone_numbers" then
      { acc with phone_numbers := acc.phone_numbers ++ [e] }
    else if item_type = "emails" then
      { acc with emails := acc.emails ++ [e] }
    else acc) intel

/-- Merge a whole extraction result into the session intelligence -/
def mergeExtracted (intel : Intelligence)
    (rs : List (String × List ExtItem)) : Intelligence :=
  rs.foldl (fun acc kv => mergeType acc kv.1 kv.2) intel

/-- Outcome of the requests.post call in the final callback: an HTTP
response with a status code, or a raised exception -/
inductive CallbackOutcome where
  | resp (status_code : Nat) : CallbackOutcome
  | exn : CallbackOutcome
deriving DecidableEq

/-- The conversation store: session_id to state (a Python dict, keys
unique) -/
abbrev ConvStore := List (String × ConversationState)

/-- _send_final_callback, viewed through its effect on the store:
the try block deletes the session only when the post returned
status 200; any other status leaves the store untouched, and a raised
exception is caught by the bare except handler (the function always
returns normally, embedded as totality) -/
def send_final_callback (conversations : ConvStore)
    (state : ConversationState) (o : CallbackOutcome) : ConvStore :=
  match o with
  | .exn => conversations
  | .resp code =>
    if code = 200 then
      (if conversations.any (fun kv => kv.1 = state.session_id) then
        conversations.filter (fun kv => !(kv.1 = state.session_id))
      else conversations)
    else conversations

/-- Inputs of one process_guvi_request turn for an existing session -/
structure TurnInput where
  history : List Message
  message : Message
  rand : Rand
  outcome : CallbackOutcome
  replyOk : Bool
deriving DecidableEq

/-- The state transition of process_guvi_request on a session's state:
append messages, latch scam_detected when confidence exceeds 0.7,
merge extracted intelligence, and increment engagement_level on
scam-detected turns.  The reply value itself does not touch these
fields; replyOk embeds whether the orchestrator call returns rather
than raising (the source invokes generate_response with keyword
arguments its src signature does not declare), and a raise aborts the
turn before the engagement_level increment. -/
def process_turn (m : Matcher) (st : ConversationState)
    (inp : TurnInput) : ConversationState :=
  let st := { st with messages := st.messages ++ inp.history ++ [inp.message] }
  let det := detect_scam inp.message.text
  let st := if decide (Rat.divInt 7 10 < det.confidence) && !st.scam_detected then
    { st with scam_detected := true, scam_confidence := det.confidence } else st
  let extracted := extract_all m inp.message.text
  let st := { st with
    extracted_intelligence := mergeExtracted st.extracted_intelligence extracted }
  if st.scam_detected then
    (if inp.replyOk then
      { st with engagement_level := st.engagement_level + 1 }
    else st)
  else st

/-- A session's state after a sequence of turns -/
def run_session (m : Matcher) (st : ConversationState)
    (inputs : List TurnInput) : ConversationState :=
  inputs.foldl (process_turn m) st

/-! ## Order facts about the Python min and max -/

theorem pyMax_le {a b c : ℚ} (h1 : a ≤ c) (h2 : b ≤ c) : pyMax a b ≤ c := by
  unfold pyMax
  split <;> assumption

theorem le_pyMax_left (a b : ℚ) : a ≤ pyMax a b := by
  unfold pyMax
  split
  · exact le_refl a
  · exact le_of_not_le (by assumption)

theorem le_pyMax_right (a b : ℚ) : b ≤ pyMax a b := by
  unfold pyMax
  split
  · assumption
  · exact le_refl b

theorem pyMax_nonneg {a b : ℚ} (h : 0 ≤ a) : 0 ≤ pyMax a b :=
  le_trans h (le_pyMax_left a b)

theorem pyMax_bounds {lo hi a b : ℚ} (ha : lo ≤ a) (ha' : a ≤ hi)
    (hb : lo ≤ b) (hb' : b ≤ hi) : lo ≤ pyMax a b ∧ pyMax a b ≤ hi := by
  unfold pyMax
  split
  · exact ⟨ha, ha'⟩
  · exact ⟨hb, hb'⟩

theorem pyMin_le_right (a b : ℚ) : pyMin a b ≤ b := by
  unfold pyMin
  split
  · assumption
  · exact le_refl b

theorem pyMin_nonneg {a b : ℚ} (ha : 0 ≤ a) (hb : 0 ≤ b) : 0 ≤ pyMin a b := by
  unfold pyMin
  split <;> assumption

/-! ## Bounds on the classifier sub-scores -/

theorem categoryScore_nonneg (tl : List Char) (kws : List (String × ℚ))
    (h : ∀ p ∈ kws, 0 ≤ p.2) : 0 ≤ categoryScore tl kws := by
  have hs : 0 ≤ ((catFound tl kws).map (fun kw => kw.2)).sum := by
    apply List.sum_nonneg
    intro x hx
    obtain ⟨p, hp, rfl⟩ := List.mem_map.1 hx
    exact h p (List.mem_of_mem_filter hp)
  simp only [categoryScore]
  split
  · exact hs
  · exact pyMin_nonneg (by positivity) (by norm_num)

theorem categoryScore_le_one (tl : List Char) (kws : List (String × ℚ)) :
    categoryScore tl kws ≤ 1 := by
  simp only [categoryScore]
  split
  · rename_i hempty
    rw [List.isEmpty_iff.1 hempty]
    simp
  · exact pyMin_le_right _ _

theorem foldl_pyMax_le {l : List ℚ} {acc b : ℚ} (hacc : acc ≤ b)
    (h : ∀ x ∈ l, x ≤ b) : l.foldl pyMax acc ≤ b := by
  induction l generalizing acc with
  | nil => exact hacc
  | cons x xs ih =>
    exact ih (pyMax_le hacc (h x (List.mem_cons_self x xs)))
      (fun y hy => h y (List.mem_cons_of_mem _ hy))

theorem acc_le_foldl_pyMax (l : List ℚ) (acc : ℚ) : acc ≤ l.foldl pyMax acc := by
  induction l generalizing acc with
  | nil => exact le_refl acc
  | cons x xs ih => exact le_trans (le_pyMax_left acc x) (ih (pyMax acc x))

theorem listMax_le {l : List ℚ} {b : ℚ} (hb : 0 ≤ b) (h : ∀ x ∈ l, x ≤ b) :
    listMax l ≤ b := by
  cases l with
  | nil => exact hb
  | cons x xs =>
    show xs.foldl pyMax x ≤ b
    exact foldl_pyMax_le (h x (List.mem_cons_self x xs))
      (fun y hy => h y (List.mem_cons_of_mem _ hy))

theorem listMax_nonneg {l : List ℚ} (h : ∀ x ∈ l, 0 ≤ x) : 0 ≤ listMax l := by
  cases l with
  | nil => exact le_refl 0
  | cons x xs =>
    show 0 ≤ xs.foldl pyMax x
    exact le_trans (h x (List.mem_cons_self x xs)) (acc_le_foldl_pyMax xs x)

theorem keyword_weights_nonneg :
    ∀ c ∈ keyword_categories, ∀ p ∈ c.2, 0 ≤ p.2 := by
  simp only [keyword_categories, List.forall_mem_cons, List.forall_mem_nil]
  norm_num

theorem keyword_score_nonneg (t : List Char) : 0 ≤ keyword_score t := by
  unfold keyword_score
  apply listMax_nonneg
  intro x hx
  simp only [calculate_keyword_score, List.map_map, List.mem_map] at hx
  obtain ⟨c, hc, rfl⟩ := hx
  exact categoryScore_nonneg _ _ (keyword_weights_nonneg c hc)

theorem keyword_score_le_one (t : List Char) : keyword_score t ≤ 1 := by
  unfold keyword_score
  apply listMax_le (by norm_num)
  intro x hx
  simp only [calculate_keyword_score, List.map_map, List.mem_map] at hx
  obtain ⟨c, hc, rfl⟩ := hx
  exact categoryScore_le_one _ _

theorem scam_pattern_weights : ∀ p ∈ scam_patterns, 0 ≤ p.2 ∧ p.2 ≤ 1 := by
  simp only [scam_patterns, List.forall_mem_cons, List.forall_mem_nil]
  norm_num

theorem pattern_fold_bounds (l : List (RE × ℚ)) (t : List Char) (acc : ℚ)
    (h0 : 0 ≤ acc) (h1 : acc ≤ 1) (hw : ∀ p ∈ l, 0 ≤ p.2 ∧ p.2 ≤ 1) :
    0 ≤ l.foldl (fun a pw => if reSearch pw.1 t then pyMax a pw.2 else a) acc ∧
      l.foldl (fun a pw => if reSearch pw.1 t then pyMax a pw.2 else a) acc ≤ 1 := by
  induction l generalizing acc with
  | nil => exact ⟨h0, h1⟩
  | cons p ps ih =>
    simp only [List.foldl_cons]
    obtain ⟨hp0, hp1⟩ := hw p (List.mem_cons_self p ps)
    have hnext : ∀ q ∈ ps, 0 ≤ q.2 ∧ q.2 ≤ 1 :=
      fun q hq => hw q (List.mem_cons_of_mem _ hq)
    split
    · obtain ⟨g0, g1⟩ := pyMax_bounds h0 h1 hp0 hp1
      exact ih _ g0 g1 hnext
    · exact ih _ h0 h1 hnext

theorem pattern_score_bounds (t : List Char) :
    0 ≤ pattern_score t ∧ pattern_score t ≤ 1 := by
  unfold pattern_score calculate_pattern_score
  exact pattern_fold_bounds _ _ 0 (le_refl 0) (by norm_num) scam_pattern_weights

theorem ite_bounds {lo hi x y : ℚ} (c : Prop) [Decidable c]
    (hx : lo ≤ x ∧ x ≤ hi) (hy : lo ≤ y ∧ y ≤ hi) :
    lo ≤ (if c then x else y) ∧ (if c then x else y) ≤ hi := by
  split
  · exact hx
  · exact hy


theorem urlStep_bounds {s : ℚ} (u : List Char) (h0 : 0 ≤ s) (h1 : s ≤ 9/10) :
    0 ≤ urlStep s u ∧ urlStep s u ≤ 9/10 := by
  unfold urlStep
  have b1 : (0:ℚ) ≤ 9/10 ∧ (9/10:ℚ) ≤ 9/10 := by norm_num
  have b2 : (0:ℚ) ≤ 4/5 ∧ (4/5:ℚ) ≤ 9/10 := by norm_num
  have b3 : (0:ℚ) ≤ 7/10 ∧ (7/10:ℚ) ≤ 9/10 := by norm_num
  have b4 : (0:ℚ) ≤ 3/5 ∧ (3/5:ℚ) ≤ 9/10 := by norm_num
  have s1 := @ite_bounds 0 (9/10) _ _
    (known_scam_domains.any (fun d => containsSub d.data u) = true) _
    (pyMax_bounds h0 h1 b1.1 b1.2) ⟨h0, h1⟩
  have s2 := ite_bounds (suspicious_tlds.any (fun d => containsSub d.data u) = true)
    (pyMax_bounds s1.1 s1.2 b2.1 b2.2) s1
  have s3 := ite_bounds (reSearch ipRE u = true)
    (pyMax_bounds s2.1 s2.2 b3.1 b3.2) s2
  exact ite_bounds ((decide (u.length < 30) && containsSub "http".data u) = true)
    (pyMax_bounds s3.1 s3.2 b4.1 b4.2) s3

theorem url_fold_bounds (l : List (List Char)) (acc : ℚ)
    (h0 : 0 ≤ acc) (h1 : acc ≤ 9/10) :
    0 ≤ l.foldl urlStep acc ∧ l.foldl urlStep acc ≤ 9/10 := by
  induction l generalizing acc with
  | nil => exact ⟨h0, h1⟩
  | cons u us ih =>
    simp only [List.foldl_cons]
    obtain ⟨g0, g1⟩ := urlStep_bounds u h0 h1
    exact ih _ g0 g1

theorem url_score_bounds (t : List Char) :
    0 ≤ url_score t ∧ url_score t ≤ 9/10 := by
  unfold url_score analyze_urls
  simp only
  split
  · norm_num
  · exact url_fold_bounds _ 0 (le_refl 0) (by norm_num)

theorem phone_score_bounds (t : List Char) :
    0 ≤ phone_score t ∧ phone_score t ≤ 4/5 := by
  unfold phone_score detect_phone_numbers
  simp only
  split
  · norm_num
  · split
    · norm_num
    · split <;> norm_num


theorem financial_score_bounds (t : List Char) :
    0 ≤ financial_score t ∧ financial_score t ≤ 1 := by
  unfold financial_score analyze_financial_info
  have ha := @pyMax_bounds 0 1 _ _ (le_refl 0) (by norm_num)
    (by norm_num : (0:ℚ) ≤ 7/10) (by norm_num)
  have hin := @ite_bounds 0 1 _ _
    (["account", "bank", "acc"].any
      (fun k => containsSub k.data (lowerStr (lowerStr t))) = true) _
    (pyMax_bounds ha.1 ha.2 (by norm_num : (0:ℚ) ≤ 9/10) (by norm_num)) ha
  have hzero : (0:ℚ) ≤ 0 ∧ (0:ℚ) ≤ 1 := by norm_num
  have s1 := @ite_bounds 0 1 _ _ (reSearch acctRE (lowerStr t) = true) _
    hin hzero
  have s2 := @ite_bounds 0 1 _ _
    ([upi1RE, upi2RE, upi3RE].any (fun r => reSearch r (lowerStr t)) = true) _
    (pyMax_bounds s1.1 s1.2 (by norm_num : (0:ℚ) ≤ 19/20) (by norm_num)) s1
  exact ite_bounds (reSearch cardRE (lowerStr t) = true)
    (pyMax_bounds s2.1 s2.2 (by norm_num : (0:ℚ) ≤ 1) (le_refl 1)) s2


theorem comboBounds (E C u m L : ℚ) (hE : 0 ≤ E ∧ E ≤ 1) (hC : 0 ≤ C ∧ C ≤ 1)
    (hu : 0 ≤ u ∧ u ≤ 2/5) (hm : 0 ≤ m ∧ m ≤ 3/10) (hL : 0 ≤ L ∧ L ≤ 7/10) :
    0 ≤ E * (3/10) + C * (1/5) + u + m + L * (1/5) ∧
      E * (3/10) + C * (1/5) + u + m + L * (1/5) ≤ 67/50 := by
  constructor <;>
    linarith [hE.1, hE.2, hC.1, hC.2, hu.1, hu.2, hm.1, hm.2, hL.1, hL.2]

theorem linguistic_score_bounds (t : List Char) :
    0 ≤ linguistic_score t ∧ linguistic_score t ≤ 67/50 := by
  unfold linguistic_score calculate_linguistic_features
  split
  · dsimp only
    apply comboBounds <;> constructor <;> norm_num [pyMin]
  · dsimp only
    apply comboBounds
    · exact ⟨pyMin_nonneg (by positivity) (by norm_num), pyMin_le_right _ _⟩
    · refine ite_bounds _ (by norm_num) ?_
      exact ⟨pyMin_nonneg (by positivity) (by norm_num), pyMin_le_right _ _⟩
    · exact ⟨pyMin_nonneg (by positivity) (by norm_num), pyMin_le_right _ _⟩
    · exact ⟨pyMin_nonneg (by positivity) (by norm_num), pyMin_le_right _ _⟩
    · exact ite_bounds _ (by norm_num) (by norm_num)

theorem total_score_bounds (t : List Char) :
    0 ≤ total_score t ∧ total_score t ≤ 997/1000 := by
  have hk := And.intro (keyword_score_nonneg t) (keyword_score_le_one t)
  have hp := pattern_score_bounds t
  have hf := financial_score_bounds t
  have hu := url_score_bounds t
  have hph := phone_score_bounds t
  have hl := linguistic_score_bounds t
  unfold total_score
  constructor <;>
    linarith [hk.1, hk.2, hp.1, hp.2, hf.1, hf.2, hu.1, hu.2, hph.1, hph.2,
      hl.1, hl.2]

theorem boosted_score_bounds (t : List Char) :
    0 ≤ boosted_score t ∧ boosted_score t ≤ 1 := by
  have htot := total_score_bounds t
  unfold boosted_score
  split
  · exact ⟨pyMin_nonneg (by linarith [htot.1]) (by norm_num), pyMin_le_right _ _⟩
  · exact ⟨htot.1, by linarith [htot.2]⟩


theorem detect_scam_eq (text : String) : detect_scam text =
    if (text.data.isEmpty || decide ((pyStrip text.data).length < 3)) = true then
      ⟨false, 0, none⟩
    else
      ⟨decide (threshold text.data ≤ boosted_score text.data), boosted_score text.data,
       some ⟨boosted_score text.data, threshold text.data,
         (keyword_analysis text.data).map (fun c => (c.1, c.2.1))⟩⟩ := rfl

theorem detect_scam_guard {text : String}
    (hg : (text.data.isEmpty || decide ((pyStrip text.data).length < 3)) = true) :
    detect_scam text = ⟨false, 0, none⟩ := by
  rw [detect_scam_eq, if_pos hg]

theorem detect_scam_full {text : String}
    (hg : (text.data.isEmpty || decide ((pyStrip text.data).length < 3)) = false) :
    detect_scam text =
      ⟨decide (threshold text.data ≤ boosted_score text.data), boosted_score text.data,
       some ⟨boosted_score text.data, threshold text.data,
         (keyword_analysis text.data).map (fun c => (c.1, c.2.1))⟩⟩ := by
  rw [detect_scam_eq, if_neg]
  simp [hg]

/-- C3: for every text input, detect_scam returns a confidence in [0,1];
whenever an analysis is produced, its threshold_used is 0.35 or 0.4,
it is 0.35 exactly when the financial score exceeds 0.7 or the pattern
score exceeds 0.8, and is_scam equals (confidence >= threshold_used);
the short-text guard returns is_scam false with confidence 0. -/
theorem claim_C3 (text : String) :
    (0 ≤ (detect_scam text).confidence ∧ (detect_scam text).confidence ≤ 1) ∧
    (∀ a, (detect_scam text).analysis = some a →
      ((a.threshold_used = 7/20 ∨ a.threshold_used = 2/5) ∧
       (a.threshold_used = 7/20 ↔
         (financial_score text.data > 7/10 ∨ pattern_score text.data > 4/5)) ∧
       (detect_scam text).is_scam =
         decide (a.threshold_used ≤ (detect_scam text).confidence))) ∧
    ((detect_scam text).analysis = none →
      (detect_scam text).is_scam = false ∧ (detect_scam text).confidence = 0) := by
  cases hguard : (text.data.isEmpty || decide ((pyStrip text.data).length < 3)) with
  | true =>
    rw [detect_scam_guard hguard]
    refine ⟨⟨le_refl 0, by norm_num⟩, ?_, fun _ => ⟨rfl, rfl⟩⟩
    intro a ha
    exact absurd ha (by simp)
  | false =>
    rw [detect_scam_full hguard]
    refine ⟨boosted_score_bounds text.data, ?_, ?_⟩
    · intro a ha
      simp only [Option.some.injEq] at ha
      subst ha
      refine ⟨?_, ?_, rfl⟩
      · unfold threshold
        split
        · exact Or.inl rfl
        · exact Or.inr rfl
      · unfold threshold
        split
        · rename_i h
          simpa using h
        · rename_i h
          constructor
          · intro habs
            norm_num at habs
          · intro hc
            exact absurd hc h
    · intro h
      exact absurd h (by simp)



theorem getGroup_update_ne (rs : List (String × List ExtItem))
    (key k : String) (it : ExtItem) (hk : k ≠ key) :
    getGroup (rs.map (fun kv => if kv.1 = key then (kv.1, kv.2 ++ [it]) else kv)) k
      = getGroup rs k := by
  induction rs with
  | nil => rfl
  | cons kv rest ih =>
    have h1 : (if kv.1 = key then (kv.1, kv.2 ++ [it]) else kv).1 = kv.1 := by
      split <;> rfl
    by_cases hkk : kv.1 = k
    · have hnkey : ¬ kv.1 = key := fun h => hk (hkk ▸ h)
      simp only [List.map_cons, if_neg hnkey]
      unfold getGroup
      rw [List.find?_cons_of_pos _ (by simp [hkk]),
        List.find?_cons_of_pos _ (by simp [hkk])]
    · unfold getGroup
      simp only [List.map_cons]
      rw [List.find?_cons_of_neg _ (by simp [h1, hkk]),
        List.find?_cons_of_neg _ (by simp [hkk])]
      exact ih

theorem getGroup_addToResults_ne (rs : List (String × List ExtItem))
    (key k : String) (it : ExtItem) (hk : k ≠ key) :
    getGroup (addToResults rs key it) k = getGroup rs k := by
  unfold addToResults
  split
  · exact getGroup_update_ne rs key k it hk
  · rfl

theorem matchStep_snd (text pattern_type : String)
    (st : ℚ × List (String × List ExtItem)) (rm : RawMatch) :
    (matchStep text pattern_type st rm).2 = st.2 ∨
      ∃ item, (matchStep text pattern_type st rm).2 =
        addToResults st.2 (result_key pattern_type) item := by
  unfold matchStep
  cases rm.group1 with
  | none =>
    dsimp only
    split_ifs <;> first | exact Or.inl rfl | exact Or.inr ⟨_, rfl⟩
  | some g =>
    dsimp only
    split_ifs <;> first | exact Or.inl rfl | exact Or.inr ⟨_, rfl⟩

theorem getGroup_matchStep_ne (text pattern_type : String)
    (st : ℚ × List (String × List ExtItem)) (rm : RawMatch) (k : String)
    (hk : k ≠ result_key pattern_type) :
    getGroup (matchStep text pattern_type st rm).2 k = getGroup st.2 k := by
  rcases matchStep_snd text pattern_type st rm with h | ⟨item, h⟩
  · rw [h]
  · rw [h]
    exact getGroup_addToResults_ne _ _ _ _ hk

theorem getGroup_foldl_matchStep_ne (text pattern_type : String)
    (ms : List RawMatch) (st : ℚ × List (String × List ExtItem)) (k : String)
    (hk : k ≠ result_key pattern_type) :
    getGroup ((ms.foldl (matchStep text pattern_type) st).2) k = getGroup st.2 k := by
  induction ms generalizing st with
  | nil => rfl
  | cons rm rest ih =>
    simp only [List.foldl_cons]
    rw [ih _]
    exact getGroup_matchStep_ne text pattern_type st rm k hk

theorem getGroup_patternFold_ne (m : Matcher) (text pattern_type : String)
    (rs : List (String × List ExtItem)) (pc : String × ℚ) (k : String)
    (hk : k ≠ result_key pattern_type) :
    getGroup (patternFold m text pattern_type rs pc) k = getGroup rs k := by
  unfold patternFold
  exact getGroup_foldl_matchStep_ne _ _ _ _ _ hk

theorem getGroup_typeFold_ne (m : Matcher) (text : String)
    (rs : List (String × List ExtItem)) (tp : String × List (String × ℚ))
    (k : String) (hk : k ≠ result_key tp.1) :
    getGroup (typeFold m text rs tp) k = getGroup rs k := by
  unfold typeFold
  induction tp.2 generalizing rs with
  | nil => rfl
  | cons pc rest ih =>
    simp only [List.foldl_cons]
    rw [ih _]
    exact getGroup_patternFold_ne m text tp.1 rs pc k hk

theorem getGroup_tableFold_ne (m : Matcher) (text : String)
    (tbl : List (String × List (String × ℚ)))
    (rs : List (String × List ExtItem)) (k : String)
    (hk : ∀ tp ∈ tbl, k ≠ result_key tp.1) :
    getGroup (tbl.foldl (typeFold m text) rs) k = getGroup rs k := by
  induction tbl generalizing rs with
  | nil => rfl
  | cons tp rest ih =>
    simp only [List.foldl_cons]
    rw [ih _ (fun q hq => hk q (List.mem_cons_of_mem _ hq))]
    exact getGroup_typeFold_ne m text rs tp k (hk tp (List.mem_cons_self tp rest))

theorem getGroup_map_val (rs : List (String × List ExtItem))
    (g : List ExtItem → List ExtItem) (hg : g [] = []) (k : String) :
    getGroup (rs.map (fun kv => (kv.1, g kv.2))) k = g (getGroup rs k) := by
  induction rs with
  | nil => exact hg.symm
  | cons kv rest ih =>
    by_cases hkk : kv.1 = k
    · unfold getGroup
      simp only [List.map_cons]
      rw [List.find?_cons_of_pos _ (by simp [hkk]),
        List.find?_cons_of_pos _ (by simp [hkk])]
      rfl
    · unfold getGroup
      simp only [List.map_cons]
      rw [List.find?_cons_of_neg _ (by simp [hkk]),
        List.find?_cons_of_neg _ (by simp [hkk])]
      exact ih

theorem extract_all_group_missing (m : Matcher) (text : String) (k : String)
    (hk : k = "bank_accounts" ∨ k = "upi_ids" ∨ k = "phone_numbers" ∨
      k = "card_details") :
    getGroup (extract_all m text) k = [] := by
  have hkeys : ∀ tp ∈ extractor_patterns, k ≠ result_key tp.1 := by
    rcases hk with rfl | rfl | rfl | rfl <;>
      · intro tp htp
        simp only [extractor_patterns, List.mem_cons, List.not_mem_nil] at htp
        rcases htp with rfl | rfl | rfl | rfl | rfl | rfl | h
        all_goals first | decide | exact absurd h (by simp)
  have hinit : getGroup initResults k = [] := by
    rcases hk with rfl | rfl | rfl | rfl <;> rfl
  unfold extract_all
  split
  · exact hinit
  · rw [getGroup_map_val _
      (fun l => l.filter (fun it => decide (Rat.divInt 3 5 ≤ it.confidence))) rfl k]
    rw [getGroup_map_val _ (fun l => sortDesc (dedupByValue [] l)) rfl k]
    rw [getGroup_tableFold_ne _ _ _ _ _ hkeys, hinit]
    rfl



def scenarioC_text : String :=
  "Your account 123456789012 will be suspended. Pay immediately via fraud@ybl."

/-- C2: for every input text (and every finditer behaviour), the
extract_all result has empty lists under bank_accounts, upi_ids,
phone_numbers and card_details: matches are appended under the key
computed as the type name with underscores removed plus s, which
matches a pre-initialized key only for the url and email types. -/
theorem claim_C2 (m : Matcher) (text : String) :
    getGroup (extract_all m text) "bank_accounts" = [] ∧
    getGroup (extract_all m text) "upi_ids" = [] ∧
    getGroup (extract_all m text) "phone_numbers" = [] ∧
    getGroup (extract_all m text) "card_details" = [] :=
  ⟨extract_all_group_missing m text _ (Or.inl rfl),
   extract_all_group_missing m text _ (Or.inr (Or.inl rfl)),
   extract_all_group_missing m text _ (Or.inr (Or.inr (Or.inl rfl))),
   extract_all_group_missing m text _ (Or.inr (Or.inr (Or.inr rfl)))⟩

/-- C9: the empty string yields the (false, 0, empty) classifier result
and all-empty extraction groups, and no exception (both embeddings are
total functions); more generally any text of stripped length below 3
gets the empty classifier result and of stripped length below 10 the
empty extraction groups. -/
theorem claim_C9 :
    detect_scam "" = ⟨false, 0, none⟩ ∧
    (∀ m : Matcher, extract_all m "" = initResults) ∧
    (∀ text : String, (pyStrip text.data).length < 3 →
      detect_scam text = ⟨false, 0, none⟩) ∧
    (∀ (m : Matcher) (text : String), (pyStrip text.data).length < 10 →
      extract_all m text = initResults) := by
  refine ⟨rfl, fun m => rfl, ?_, ?_⟩
  · intro text h
    exact detect_scam_guard (by simp [h])
  · intro m text h
    unfold extract_all
    rw [if_pos]
    simp [h]

/-- Witness for C9 at concrete guarded inputs. -/
theorem claim_C9_witness :
    detect_scam "ab" = ⟨false, 0, none⟩ ∧
    extract_all (fun _ _ => []) "short" = initResults :=
  ⟨claim_C9.2.2.1 "ab" (by decide),
   claim_C9.2.2.2 (fun _ _ => []) "short" (by decide)⟩

def c5_state : ConversationState := { session_id := "s1" }

/-- C5 counterexample: when the callback raises, or returns a non-200
status, the session stays in the store, refuting removal regardless of
outcome. -/
theorem claim_C5_cex :
    send_final_callback [("s1", c5_state)] c5_state CallbackOutcome.exn
        = [("s1", c5_state)] ∧
    send_final_callback [("s1", c5_state)] c5_state (CallbackOutcome.resp 500)
        = [("s1", c5_state)] :=
  ⟨rfl, rfl⟩

/-- C5 (amended): after the finalization callback is attempted, the
session is removed from the store only when the callback returns
HTTP 200; on any other status or a raised exception the store is
unchanged; the bare except handler means a fault never propagates
(send_final_callback is total). -/
theorem claim_C5 :
    (∀ (convs : ConvStore) (st : ConversationState),
      (send_final_callback convs st (CallbackOutcome.resp 200)).all
        (fun kv => !(kv.1 = st.session_id)) = true) ∧
    (∀ (convs : ConvStore) (st : ConversationState) (code : Nat), code ≠ 200 →
      send_final_callback convs st (CallbackOutcome.resp code) = convs) ∧
    (∀ (convs : ConvStore) (st : ConversationState),
      send_final_callback convs st CallbackOutcome.exn = convs) := by
  refine ⟨?_, ?_, fun convs st => rfl⟩
  · intro convs st
    unfold send_final_callback
    dsimp only
    rw [if_pos rfl]
    split
    · rw [List.all_eq_true]
      intro kv hkv
      have := List.of_mem_filter hkv
      simpa using this
    · rename_i hany
      rw [List.all_eq_true]
      intro kv hkv
      by_contra hc
      apply hany
      rw [List.any_eq_true]
      refine ⟨kv, hkv, ?_⟩
      simpa using hc
  · intro convs st code hcode
    unfold send_final_callback
    dsimp only
    rw [if_neg hcode]

/-- Witness for C5 at a concrete non-200 status. -/
theorem claim_C5_witness :
    send_final_callback [("s1", c5_state)] c5_state (CallbackOutcome.resp 503)
      = [("s1", c5_state)] :=
  claim_C5.2.1 [("s1", c5_state)] c5_state 503 (by decide)

theorem process_turn_monotone (m : Matcher) (st : ConversationState)
    (inp : TurnInput) :
    st.scam_detected ≤ (process_turn m st inp).scam_detected ∧
    st.engagement_level ≤ (process_turn m st inp).engagement_level := by
  unfold process_turn
  dsimp only
  split_ifs <;> simp_all

/-- C6: across any sequence of processed turns, a session state's
scam_detected flag never goes from true to false and its
engagement_level never decreases. -/
theorem claim_C6 (m : Matcher) (st : ConversationState)
    (inputs : List TurnInput) :
    st.scam_detected ≤ (run_session m st inputs).scam_detected ∧
    st.engagement_level ≤ (run_session m st inputs).engagement_level := by
  unfold run_session
  induction inputs generalizing st with
  | nil => exact ⟨le_refl _, le_refl _⟩
  | cons inp rest ih =>
    simp only [List.foldl_cons]
    obtain ⟨h1, h2⟩ := process_turn_monotone m st inp
    obtain ⟨g1, g2⟩ := ih (process_turn m st inp)
    exact ⟨le_trans h1 g1, le_trans h2 g2⟩



theorem mem_insertDesc {y it : ExtItem} {l : List ExtItem} :
    y ∈ insertDesc it l ↔ y = it ∨ y ∈ l := by
  induction l with
  | nil => simp [insertDesc]
  | cons x xs ih =>
    unfold insertDesc
    split
    · rw [List.mem_cons, ih, List.mem_cons]
      tauto
    · rw [List.mem_cons, List.mem_cons]

theorem insertDesc_perm (it : ExtItem) (l : List ExtItem) :
    List.Perm (insertDesc it l) (it :: l) := by
  induction l with
  | nil => exact List.Perm.refl _
  | cons x xs ih =>
    unfold insertDesc
    split
    · exact (ih.cons x).trans (List.Perm.swap it x xs)
    · exact List.Perm.refl _

theorem insertDesc_sorted {it : ExtItem} {l : List ExtItem}
    (h : l.Pairwise (fun a b => b.confidence ≤ a.confidence)) :
    (insertDesc it l).Pairwise (fun a b => b.confidence ≤ a.confidence) := by
  induction l with
  | nil => simp [insertDesc]
  | cons x xs ih =>
    rw [List.pairwise_cons] at h
    unfold insertDesc
    split
    · rename_i hcmp
      rw [List.pairwise_cons]
      refine ⟨?_, ih h.2⟩
      intro y hy
      rcases mem_insertDesc.1 hy with rfl | hy2
      · exact le_of_lt hcmp
      · exact h.1 y hy2
    · rename_i hcmp
      rw [List.pairwise_cons]
      refine ⟨?_, List.pairwise_cons.2 h⟩
      intro y hy
      rcases List.mem_cons.1 hy with rfl | hy2
      · exact le_of_not_lt hcmp
      · exact le_trans (h.1 y hy2) (le_of_not_lt hcmp)

theorem sortDesc_perm (l : List ExtItem) : List.Perm (sortDesc l) l := by
  induction l with
  | nil => exact List.Perm.refl _
  | cons x xs ih =>
    unfold sortDesc
    exact (insertDesc_perm x (sortDesc xs)).trans (ih.cons x)

theorem sortDesc_sorted (l : List ExtItem) :
    (sortDesc l).Pairwise (fun a b => b.confidence ≤ a.confidence) := by
  induction l with
  | nil => exact List.Pairwise.nil
  | cons x xs ih =>
    unfold sortDesc
    exact insertDesc_sorted ih

theorem mem_dedupByValue {it : ExtItem} :
    ∀ {l : List ExtItem} {seen : List String},
      it ∈ dedupByValue seen l → seen.contains it.value = false := by
  intro l
  induction l with
  | nil =>
    intro seen h
    simp [dedupByValue] at h
  | cons x xs ih =>
    intro seen h
    unfold dedupByValue at h
    split at h
    · exact ih h
    · rename_i hcont
      rcases List.mem_cons.1 h with rfl | h2
      · simpa using hcont
      · have h3 := ih h2
        simp only [List.contains_cons, Bool.or_eq_false_iff] at h3
        exact h3.2

theorem dedup_values_nodup :
    ∀ (l : List ExtItem) (seen : List String),
      ((dedupByValue seen l).map (fun it => it.value)).Nodup := by
  intro l
  induction l with
  | nil =>
    intro seen
    simp [dedupByValue]
  | cons x xs ih =>
    intro seen
    unfold dedupByValue
    split
    · exact ih seen
    · simp only [List.map_cons, List.nodup_cons]
      refine ⟨?_, ih _⟩
      intro hmem
      obtain ⟨y, hy, hyv⟩ := List.mem_map.1 hmem
      have h3 := mem_dedupByValue hy
      simp only [List.contains_cons, Bool.or_eq_false_iff] at h3
      have := h3.1
      rw [hyv] at this
      simp at this

theorem divInt_three_five : Rat.divInt 3 5 = 3/5 := by
  rw [Rat.divInt_eq_div]
  norm_num

/-- C7: every per-type list extract_all returns has pairwise distinct
cleaned values (first occurrence kept by the dedup pass), is sorted by
confidence in descending order, and contains no item of confidence
below 0.6. -/
theorem claim_C7 (m : Matcher) (text : String) (key : String)
    (l : List ExtItem) (h : (key, l) ∈ extract_all m text) :
    (l.map (fun it => it.value)).Nodup ∧
    l.Pairwise (fun a b => b.confidence ≤ a.confidence) ∧
    (∀ it ∈ l, (3/5 : ℚ) ≤ it.confidence) := by
  unfold extract_all at h
  split at h
  · simp only [initResults, List.mem_cons, List.not_mem_nil, or_false,
      Prod.mk.injEq] at h
    rcases h with ⟨-, rfl⟩ | ⟨-, rfl⟩ | ⟨-, rfl⟩ | ⟨-, rfl⟩ | ⟨-, rfl⟩ | ⟨-, rfl⟩ <;>
      exact ⟨List.nodup_nil, List.Pairwise.nil, by simp⟩
  · rw [List.map_map] at h
    obtain ⟨kv, hkv, heq⟩ := List.mem_map.1 h
    have hl : l = (sortDesc (dedupByValue [] kv.2)).filter
        (fun it => decide (Rat.divInt 3 5 ≤ it.confidence)) := by
      have := congrArg Prod.snd heq
      simpa using this.symm
    subst hl
    refine ⟨?_, ?_, ?_⟩
    · have hnodup := dedup_values_nodup kv.2 []
      have hperm : List.Perm
          ((sortDesc (dedupByValue [] kv.2)).map (fun it => it.value))
          ((dedupByValue [] kv.2).map (fun it => it.value)) :=
        (sortDesc_perm _).map _
      have hsn := hperm.nodup_iff.2 hnodup
      exact List.Nodup.sublist
        (List.Sublist.map _ (List.filter_sublist _)) hsn
    · exact List.Pairwise.sublist (List.filter_sublist _) (sortDesc_sorted _)
    · intro it hit
      have hd := List.of_mem_filter hit
      rw [show (3/5 : ℚ) = Rat.divInt 3 5 from divInt_three_five.symm]
      exact of_decide_eq_true hd


/-- Witness for C7 at a concrete matcher, text and group. -/
theorem claim_C7_witness :
    ((([] : List ExtItem)).map (fun it => it.value)).Nodup ∧
    ([] : List ExtItem).Pairwise (fun a b => b.confidence ≤ a.confidence) ∧
    (∀ it ∈ ([] : List ExtItem), (3/5 : ℚ) ≤ it.confidence) :=
  claim_C7 (fun _ _ => []) "hello world ok" "urls" [] (by decide)


theorem choose_mem (xs : List String) (i : Nat) (h : xs ≠ []) :
    choose xs i ∈ xs := by
  unfold choose
  have hlen : 0 < xs.length := List.length_pos.2 h
  have hm : i % xs.length < xs.length := Nat.mod_lt _ hlen
  rw [List.getD_eq_getElem _ _ hm]
  exact List.getElem_mem hm

theorem choose_len_pos (xs : List String) (i : Nat) (h : xs ≠ [])
    (hall : ∀ x ∈ xs, 0 < x.length) : 0 < (choose xs i).length :=
  hall _ (choose_mem xs i h)

set_option maxHeartbeats 2000000 in
theorem assembled_reply_pos (turn_count : Nat) (conf : ℚ)
    (ext : List (String × List ExtItem)) (r : Rand) :
    0 < (assembled_reply turn_count conf ext r).length := by
  have hc : 0 < (choose (tableGet modifiers "concerned") r.modIdx).length :=
    choose_len_pos _ _ (by decide) (by decide)
  have hf : 0 < (choose (tableGet modifiers "confused") r.modIdx).length :=
    choose_len_pos _ _ (by decide) (by decide)
  have ha : 0 < (choose (tableGet modifiers "agreeable") r.modIdx).length :=
    choose_len_pos _ _ (by decide) (by decide)
  have hsc : ∀ s : String, s.length = s.data.length := fun s => rfl
  rw [hsc] at hc hf ha
  unfold assembled_reply
  dsimp only
  split_ifs <;> simp only [List.length_append] <;> omega

/-- C10: for every turn count, confidence, accumulated intelligence and
random draw, the generated reply is non-empty, at most 500 characters,
and whenever the assembled reply exceeds 500 characters the result is
its first 497 characters followed by an ellipsis. -/
theorem claim_C10 (turn_count : Nat) (conf : ℚ)
    (ext : List (String × List ExtItem)) (r : Rand) :
    0 < (generate_response turn_count conf ext r).length ∧
    (generate_response turn_count conf ext r).length ≤ 500 ∧
    (500 < (assembled_reply turn_count conf ext r).length →
      generate_response turn_count conf ext r =
        (assembled_reply turn_count conf ext r).take 497 ++ "...".data) := by
  have hpos := assembled_reply_pos turn_count conf ext r
  unfold generate_response
  dsimp only
  split
  · rename_i h
    refine ⟨?_, ?_, fun _ => rfl⟩
    · simp only [List.length_append, List.length_take, List.length_cons,
        List.length_nil]
      omega
    · simp only [List.length_append, List.length_take, List.length_cons,
        List.length_nil]
      omega
  · rename_i h
    exact ⟨hpos, by omega, fun hcon => absurd hcon h⟩


/-- Witness for C10 at concrete arguments. -/
theorem claim_C10_witness :
    0 < (generate_response 0 0 [] ⟨0, 0, false, 0, false, 0, false, 0⟩).length ∧
    (generate_response 0 0 [] ⟨0, 0, false, 0, false, 0, false, 0⟩).length ≤ 500 ∧
    (500 < (assembled_reply 0 0 [] ⟨0, 0, false, 0, false, 0, false, 0⟩).length →
      generate_response 0 0 [] ⟨0, 0, false, 0, false, 0, false, 0⟩ =
        (assembled_reply 0 0 [] ⟨0, 0, false, 0, false, 0, false, 0⟩).take 497
          ++ "...".data) :=
  claim_C10 0 0 [] ⟨0, 0, false, 0, false, 0, false, 0⟩


def scenarioA_text : String :=
  "You have WON a lottery prize of 5 lakh! Send your UPI ID to claim now!!!"

def capsText : String :=
  "URGENT NOW TODAY HURRY CONGRATULATIONS ALERT WARNING DANGER!!!!!"

/-- C4 (amended): for every input text the keyword, pattern, financial,
url and phone sub-scores lie in [0,1] before weighting; the linguistic
sub-score lies in [0, 67/50] and can exceed 1. -/
theorem claim_C4 (text : String) :
    (0 ≤ keyword_score text.data ∧ keyword_score text.data ≤ 1) ∧
    (0 ≤ pattern_score text.data ∧ pattern_score text.data ≤ 1) ∧
    (0 ≤ financial_score text.data ∧ financial_score text.data ≤ 1) ∧
    (0 ≤ url_score text.data ∧ url_score text.data ≤ 1) ∧
    (0 ≤ phone_score text.data ∧ phone_score text.data ≤ 1) ∧
    (0 ≤ linguistic_score text.data ∧ linguistic_score text.data ≤ 67/50) := by
  have hu := url_score_bounds text.data
  have hp := phone_score_bounds text.data
  exact ⟨⟨keyword_score_nonneg _, keyword_score_le_one _⟩, pattern_score_bounds _,
    financial_score_bounds _, ⟨hu.1, by linarith [hu.2]⟩,
    ⟨hp.1, by linarith [hp.2]⟩, linguistic_score_bounds _⟩

section

attribute [local semireducible] Rat.add Rat.mul Rat.inv

set_option maxRecDepth 1000000

/-- C4 counterexample: at this all-caps input the unweighted linguistic
sub-score is 6/5, above 1, refuting the claim that all six sub-scores
lie in [0,1]. -/
theorem claim_C4_cex :
    linguistic_score capsText.data = 6/5 ∧ 1 < (6/5 : ℚ) :=
  ⟨by decide, by norm_num⟩

/-- C8 counterexample: the call_to_action category finds no keyword at
all in the Scenario A text, refuting the claimed call_to_action
keyword hits. -/
theorem claim_C8_cex :
    (keyword_analysis scenarioA_text.data).find? (fun c => c.1 = "call_to_action")
      = some ("call_to_action", 0, []) := by
  decide

/-- C8 (amended): on the Scenario A text detect_scam returns
is_scam true with confidence 2493/4000 >= 0.6 under threshold 0.35,
driven by financial_scam and urgency_pressure (and payment_demand)
keyword hits and a match of the lottery-prize-amount regex; the
call_to_action category finds nothing. -/
theorem claim_C8 :
    detect_scam scenarioA_text = ⟨true, 2493/4000, some ⟨2493/4000, 7/20,
      [("financial_scam", 1), ("urgency_pressure", 4/15),
       ("authority_impersonation", 0), ("financial_threats", 0),
       ("payment_demand", 1/3), ("personal_info", 0),
       ("call_to_action", 0), ("free_offers", 0)]⟩⟩ ∧
    (3/5 : ℚ) ≤ 2493/4000 ∧
    reSearch lottery_pattern (lowerStr scenarioA_text.data) = true ∧
    (keyword_analysis scenarioA_text.data).find? (fun c => c.1 = "financial_scam")
      = some ("financial_scam", 1, ["won", "lottery", "prize", "lakh"]) ∧
    (keyword_analysis scenarioA_text.data).find? (fun c => c.1 = "urgency_pressure")
      = some ("urgency_pressure", 4/15, ["now"]) :=
  ⟨by decide, by norm_num, by decide, by decide, by decide⟩

/-- C1 (evidence for the code bug): on the Scenario C text the
classifier does return is_scam true, but extract_all leaves the
bank_accounts and upi_ids groups empty for every finditer behaviour,
because the appends go to the computed keys bankaccounts and upiids
which are not among the pre-initialized result keys. -/
theorem claim_C1 :
    (∀ m : Matcher,
      getGroup (extract_all m scenarioC_text) "bank_accounts" = [] ∧
      getGroup (extract_all m scenarioC_text) "upi_ids" = []) ∧
    (detect_scam scenarioC_text).is_scam = true := by
  refine ⟨fun m => ⟨extract_all_group_missing m _ _ (Or.inl rfl),
    extract_all_group_missing m _ _ (Or.inr (Or.inl rfl))⟩, ?_⟩
  decide

/-- Witness for C3 at concrete inputs ("hello" produces an analysis
with threshold 0.4; the empty string takes the guard path). -/
theorem claim_C3_witness :
    (((2/5 : ℚ) = 7/20 ∨ (2/5 : ℚ) = 2/5) ∧
     ((2/5 : ℚ) = 7/20 ↔
       (financial_score "hello".data > 7/10 ∨ pattern_score "hello".data > 4/5)) ∧
     (detect_scam "hello").is_scam =
       decide ((2/5 : ℚ) ≤ (detect_scam "hello").confidence)) ∧
    ((detect_scam "").is_scam = false ∧ (detect_scam "").confidence = 0) :=
  ⟨(claim_C3 "hello").2.1
      ⟨7/1000, 2/5,
       [("financial_scam", 0), ("urgency_pressure", 0),
        ("authority_impersonation", 0), ("financial_threats", 0),
        ("payment_demand", 0), ("personal_info", 0),
        ("call_to_action", 0), ("free_offers", 0)]⟩ (by decide),
   (claim_C3 "").2.2 rfl⟩

end


end HoneypotAPI
